import Mathlib

/-!
Verification of the pm2-bot health-monitoring core (src/bot.js) against its
natural-language specification.  The JavaScript source is shallowly embedded:
the PM2 process snapshot becomes a structure, the mutable `restartCounts` Map
becomes an association list threaded through the functions, external I/O
results (restart success, alert-delivery success) become boolean oracles, and
timestamps become integers (milliseconds).
-/

namespace Pm2Bot

/-- JS `proc.monit` as returned by `pm2.list`: CPU percentage and memory in
bytes, either of which may be absent (JS `undefined`). -/
structure Monit where
  cpu : Option Nat
  memory : Option Nat
  deriving Repr, DecidableEq

/-- JS `proc.pm2_env`: process status string and the start timestamp
`pm_uptime` (milliseconds since epoch). -/
structure Pm2Env where
  status : String
  pm_uptime : Int
  deriving Repr, DecidableEq

/-- One entry of the PM2 process list (`pm2.list` callback result). -/
structure Pm2Process where
  name : String
  monit : Option Monit
  pm2_env : Pm2Env
  deriving Repr, DecidableEq

/-- JS `proc.monit?.cpu || 0`: optional chaining yielding `undefined` and the
`|| 0` fallback both collapse to `0`. -/
def cpuOf (p : Pm2Process) : Nat :=
  match p.monit with
  | none => 0
  | some m => m.cpu.getD 0

/-- JS `Math.round(bytes / 1024 / 1024)` for a nonnegative byte count:
`Math.round x = ⌊x + 1/2⌋`, i.e. `(bytes + 524288) / 1048576` in integer
division. -/
def jsRoundMB (bytes : Nat) : Nat := (bytes + 524288) / 1048576

/-- JS `proc.monit?.memory ? Math.round(proc.monit.memory / 1024 / 1024) : 0`:
a missing or zero (falsy) byte count yields 0. -/
def memoryMBOf (p : Pm2Process) : Nat :=
  match p.monit with
  | none => 0
  | some m =>
    match m.memory with
    | none => 0
    | some b => if b == 0 then 0 else jsRoundMB b

/-- Function `isProcessStuck` (bot.js): `uptime > 300000 && cpu === 0 &&
proc.pm2_env.status === "online"` where `uptime = Date.now() - pm_uptime`
and `cpu = proc.monit?.cpu || 0`. -/
def isProcessStuck (now : Int) (p : Pm2Process) : Bool :=
  (now - p.pm2_env.pm_uptime > 300000) && (cpuOf p == 0) &&
    (p.pm2_env.status == "online")

/-- The `this.restartCounts` Map, keyed by process name. -/
abbrev RestartCounts := List (String × Nat)

/-- JS `this.restartCounts.get(processName) || 0`: look the name up in the
map, defaulting to 0 when absent. -/
def getCount : RestartCounts → String → Nat
  | [], _ => 0
  | e :: rest, name => if e.1 == name then e.2 else getCount rest name

/-- JS `this.restartCounts.set(processName, v)`: replace the existing entry
or append a new one. -/
def setCount (m : RestartCounts) (name : String) (v : Nat) : RestartCounts :=
  match m with
  | [] => [(name, v)]
  | e :: rest => if e.1 == name then (name, v) :: rest else e :: setCount rest name v

/-- Result of `handleStuckProcess`: the updated `restartCounts`, whether
`pm2Restart` was invoked, and the alert texts passed to `sendAlert`. -/
structure StuckResult where
  counts : RestartCounts
  restartInvoked : Bool
  alerts : List String
  deriving Repr

/-- Function `handleStuckProcess` (bot.js).  `restartOk` is the outcome of the awaited
`pm2Restart` call: when it rejects, control jumps to the catch block before
the counter update `this.restartCounts.set(processName, currentCount + 1)`
runs, so the counter is unchanged and a failure alert is sent.  When
`currentCount < restartThreshold` fails, no restart is invoked; a manual
intervention alert is sent and the counter is reset to 0.  (Emoji prefixes of
the alert strings are omitted.) -/
def handleStuckProcess (restartThreshold : Nat) (counts : RestartCounts)
    (processName : String) (restartOk : Bool) : StuckResult :=
  let currentCount := getCount counts processName
  if currentCount < restartThreshold then
    if restartOk then
      { counts := setCount counts processName (currentCount + 1),
        restartInvoked := true,
        alerts := ["Auto-restarted stuck process: " ++ processName ++ " (attempt " ++
          toString (currentCount + 1) ++ "/" ++ toString restartThreshold ++ ")"] }
    else
      { counts := counts,
        restartInvoked := true,
        alerts := ["Failed to auto-restart " ++ processName] }
  else
    { counts := setCount counts processName 0,
      restartInvoked := false,
      alerts := ["Process " ++ processName ++ " has been restarted " ++
        toString restartThreshold ++ " times. Manual intervention required."] }

/-- Alert text of the high-CPU branch of `checkProcessHealth`. -/
def cpuAlertText (p : Pm2Process) : String :=
  "High CPU Alert: " ++ p.name ++ " is using " ++ toString (cpuOf p) ++ "% CPU"

/-- Alert text of the high-memory branch of `checkProcessHealth`. -/
def memoryAlertText (p : Pm2Process) : String :=
  "High Memory Alert: " ++ p.name ++ " is using " ++ toString (memoryMBOf p) ++ "MB memory"

/-- Result of the `checkProcessHealth` loop body for one process. -/
structure ProcCheckResult where
  counts : RestartCounts
  alerts : List String
  stuckDetected : Bool
  restartAttempted : Bool
  deriving Repr

/-- The body of the `for (const proc of onlineProcesses)` loop in
`checkProcessHealth` (bot.js): emit a high-CPU alert if `cpu > cpuThreshold`,
a high-memory alert if `memoryMB > memoryThreshold`, and if
`isProcessStuck(proc)` then run `handleStuckProcess(proc)`.
`stuckDetected` records whether the stuck branch was taken and
`restartAttempted` whether `pm2Restart` was invoked. -/
def checkOneProcess (cpuThreshold memoryThreshold restartThreshold : Nat)
    (now : Int) (counts : RestartCounts) (restartOk : Bool)
    (p : Pm2Process) : ProcCheckResult :=
  let cpuAlerts := if cpuOf p > cpuThreshold then [cpuAlertText p] else []
  let memAlerts := if memoryMBOf p > memoryThreshold then [memoryAlertText p] else []
  if isProcessStuck now p then
    let r := handleStuckProcess restartThreshold counts p.name restartOk
    { counts := r.counts, alerts := cpuAlerts ++ memAlerts ++ r.alerts,
      stuckDetected := true, restartAttempted := r.restartInvoked }
  else
    { counts := counts, alerts := cpuAlerts ++ memAlerts,
      stuckDetected := false, restartAttempted := false }

/-- JS `p.pm2_env.status === "online"`, the filter applied to the snapshot in
`checkProcessHealth`. -/
def isOnline (p : Pm2Process) : Bool := p.pm2_env.status == "online"

/-- Sequential evaluation of the already-filtered online processes, threading
`restartCounts` and accumulating alert texts in order.  `restartOk` is the
per-process outcome oracle of the `pm2Restart` call. -/
def checkProcesses (cpuT memT rT : Nat) (now : Int) (restartOk : String → Bool) :
    List Pm2Process → RestartCounts → RestartCounts × List String
  | [], counts => (counts, [])
  | p :: rest, counts =>
    let r := checkOneProcess cpuT memT rT now counts (restartOk p.name) p
    let tail := checkProcesses cpuT memT rT now restartOk rest r.counts
    (tail.1, r.alerts ++ tail.2)

/-- Result of one full `checkProcessHealth` pass: final counter map, alerts
emitted (in order), and how many processes were evaluated by the loop. -/
structure TickResult where
  counts : RestartCounts
  alerts : List String
  evaluated : Nat
  deriving Repr

/-- Function `checkProcessHealth` (bot.js) with a successfully fetched snapshot
`procs`: filter to online processes and run the evaluation loop over them.
Alert delivery is modelled as emission of the alert texts (delivery failures
are the concern of `sendAlertRun` below). -/
def checkProcessHealth (cpuT memT rT : Nat) (now : Int)
    (restartOk : String → Bool) (procs : List Pm2Process)
    (counts : RestartCounts) : TickResult :=
  let online := procs.filter isOnline
  let r := checkProcesses cpuT memT rT now restartOk online counts
  { counts := r.1, alerts := r.2, evaluated := online.length }

/-- One firing of the `setInterval` callback registered by `startMonitoring`
(bot.js).  The callback is `async () => { try { await
this.checkProcessHealth(); } catch ... }`: it invokes `checkProcessHealth`
unconditionally.  The bot state created by the constructor holds no in-flight
flag, so the parameter `previousPassStillRunning` (whether an earlier pass has
not yet completed when the timer fires) cannot be and is not consulted. -/
def monitorTick (previousPassStillRunning : Bool) (cpuT memT rT : Nat)
    (now : Int) (restartOk : String → Bool) (procs : List Pm2Process)
    (counts : RestartCounts) : TickResult :=
  checkProcessHealth cpuT memT rT now restartOk procs counts

/-- A run of the monitoring loop: at each listed tick time the snapshot given
for that tick is evaluated, threading `restartCounts`; alerts are tagged with
the tick time at which they were sent. -/
def runMonitor (cpuT memT rT : Nat) (restartOk : String → Bool) :
    List (Int × List Pm2Process) → RestartCounts → List (Int × String)
  | [], _ => []
  | (t, procs) :: rest, counts =>
    let r := checkProcessHealth cpuT memT rT t restartOk procs counts
    r.alerts.map (fun a => (t, a)) ++ runMonitor cpuT memT rT restartOk rest r.counts

/-- Function `sendAlert` (bot.js): loop over `authorizedChatsForAlert`, awaiting
`bot.api.sendMessage` for each chat id.  On a delivery error the catch block
evaluates the template literal referencing the undeclared variable `userId`,
which throws a `ReferenceError` that nothing catches: the loop stops and the
async function rejects.  Returns the list of chat ids for which delivery was
attempted, and the error propagated to the caller (if any). -/
def sendAlertRun (sendOk : Int → Bool) : List Int → List Int × Option String
  | [] => ([], none)
  | c :: rest =>
    if sendOk c then
      let r := sendAlertRun sendOk rest
      (c :: r.1, r.2)
    else
      ([c], some "ReferenceError: userId is not defined")

/-- Target-set semantics of the PM2 bulk operations.  `pm2RestartAll`,
`pm2StopAll` and `pm2StartAll` (bot.js) invoke `pm2.restart`, `pm2.stop` and
`pm2.start` with the literal argument `"all"`, which PM2 resolves to every
managed process; the code applies no filtering. -/
def bulkTargets (arg : String) (fleet : List String) : List String :=
  if arg == "all" then fleet else fleet.filter (fun n => n == arg)

/-- Target set of `pm2RestartAll` (bot.js): `pm2.restart("all", ...)`. -/
def pm2RestartAllTargets (fleet : List String) : List String :=
  bulkTargets "all" fleet

/-- Target set of `pm2StopAll` (bot.js): `pm2.stop("all", ...)`. -/
def pm2StopAllTargets (fleet : List String) : List String :=
  bulkTargets "all" fleet

/-- Target set of `pm2StartAll` (bot.js): `pm2.start("all", ...)`. -/
def pm2StartAllTargets (fleet : List String) : List String :=
  bulkTargets "all" fleet

/-- JS values as far as the authorization middleware observes them: Telegram
user ids are numbers, usernames strings; `ctx.from?.id` can be `undefined`,
and `parseInt` of a malformed entry yields `NaN`. -/
inductive JsVal where
  | num (n : Int)
  | str (s : String)
  | nan
  | undef
  deriving Repr, DecidableEq

/-- SameValueZero, the comparison used by `Array.prototype.includes`
(`NaN` equals `NaN`; values of different types are never equal). -/
def sameValueZero : JsVal → JsVal → Bool
  | .num a, .num b => a == b
  | .str a, .str b => a == b
  | .nan, .nan => true
  | .undef, .undef => true
  | _, _ => false

/-- JS `list.includes(v)`. -/
def jsIncludes (l : List JsVal) (v : JsVal) : Bool :=
  l.any (fun x => sameValueZero x v)

/-- The fields of `ctx.from` read by the middleware. -/
structure Sender where
  id : JsVal
  username : JsVal
  deriving Repr, DecidableEq

/-- The authorization middleware condition (`setupMiddleware`, bot.js):
`this.authorizedUsers.length === 0 ||
 this.authorizedUsers.includes(ctx.from?.id) ||
 this.authorizedUsers.includes(ctx.from?.username)`.
`true` means `next()` is called (sender admitted); `false` means the
unauthorized-access reply is sent. -/
def authAdmits (authorizedUsers : List JsVal) (sender : Sender) : Bool :=
  (authorizedUsers.length == 0) || jsIncludes authorizedUsers sender.id ||
    jsIncludes authorizedUsers sender.username

/-- Apply a sequence of `handleStuckProcess` invocations (the only code that
mutates `restartCounts`), each given by the process name and the outcome of
its `pm2Restart` call. -/
def applyStuckSteps (restartThreshold : Nat) :
    List (String × Bool) → RestartCounts → RestartCounts
  | [], counts => counts
  | (name, ok) :: rest, counts =>
    applyStuckSteps restartThreshold rest
      (handleStuckProcess restartThreshold counts name ok).counts

/-- A process online since timestamp 0 with a 0% CPU reading: concrete input
for the stuck-process branch (the spec scenario process "worker"). -/
def stuckProc : Pm2Process :=
  { name := "worker", monit := some { cpu := some 0, memory := some 0 },
    pm2_env := { status := "online", pm_uptime := 0 } }

/-- A process with a 95% CPU reading, above the default 80% CPU threshold. -/
def hotProc : Pm2Process :=
  { name := "api", monit := some { cpu := some 95, memory := some 0 },
    pm2_env := { status := "online", pm_uptime := 0 } }

/-! ## Helper lemmas -/

theorem getCount_setCount (m : RestartCounts) (name : String) (v : Nat) (n : String) :
    getCount (setCount m name v) n = if name == n then v else getCount m n := by
  induction m with
  | nil => by_cases hn : name = n <;> simp [setCount, getCount, hn]
  | cons e rest ih =>
    by_cases h : e.1 = name
    · by_cases hn : name = n <;> simp [setCount, getCount, h, hn]
    · by_cases hn2 : e.1 = n
      · have hnn : ¬ name = n := fun hh => h (hn2.trans hh.symm)
        have hnn2 : ¬ n = name := fun hh => hnn hh.symm
        simp [setCount, getCount, h, hn2, hnn, hnn2]
      · simp [setCount, getCount, h, hn2, ih]

theorem handleStuck_fail_counts (rT : Nat) (counts : RestartCounts) (name : String)
    (h : getCount counts name < rT) :
    (handleStuckProcess rT counts name false).counts = counts := by
  simp [handleStuckProcess, h]

theorem applyStuckSteps_replicate_fail (rT : Nat) (counts : RestartCounts) (name : String)
    (h : getCount counts name < rT) (k : Nat) :
    applyStuckSteps rT (List.replicate k (name, false)) counts = counts := by
  induction k with
  | zero => simp [applyStuckSteps]
  | succ k ih =>
    simp only [List.replicate, applyStuckSteps]
    rw [handleStuck_fail_counts rT counts name h]
    exact ih

theorem handleStuck_counts_le (rT : Nat) (counts : RestartCounts) (name : String)
    (ok : Bool) (h : ∀ m, getCount counts m ≤ rT) :
    ∀ m, getCount (handleStuckProcess rT counts name ok).counts m ≤ rT := by
  intro m
  by_cases hc : getCount counts name < rT
  · cases ok with
    | false => simp [handleStuckProcess, hc]; exact h m
    | true =>
      simp [handleStuckProcess, hc, getCount_setCount]
      by_cases hm : name = m
      · subst hm; simp; omega
      · simp [hm]; exact h m
  · simp [handleStuckProcess, hc, getCount_setCount]
    by_cases hm : name = m
    · simp [hm]
    · simp [hm]; exact h m

theorem applyStuckSteps_le (rT : Nat) (steps : List (String × Bool)) :
    ∀ counts : RestartCounts, (∀ m, getCount counts m ≤ rT) →
      ∀ m, getCount (applyStuckSteps rT steps counts) m ≤ rT := by
  induction steps with
  | nil => intro counts h m; simpa [applyStuckSteps] using h m
  | cons s rest ih =>
    intro counts h m
    cases s with
    | mk name ok =>
      simp only [applyStuckSteps]
      exact ih _ (handleStuck_counts_le rT counts name ok h) m

theorem cpuAlert_mem_checkOne (cpuT memT rT : Nat) (now : Int)
    (counts : RestartCounts) (ok : Bool) (p : Pm2Process) (h : cpuOf p > cpuT) :
    cpuAlertText p ∈ (checkOneProcess cpuT memT rT now counts ok p).alerts := by
  by_cases hs : isProcessStuck now p <;> simp [checkOneProcess, hs, h]

theorem cpuAlert_mem_tick (cpuT memT rT : Nat) (now : Int)
    (restartOk : String → Bool) (counts : RestartCounts) (p : Pm2Process)
    (hcpu : cpuOf p > cpuT) (hon : isOnline p = true) :
    cpuAlertText p ∈ (checkProcessHealth cpuT memT rT now restartOk [p] counts).alerts := by
  simp only [checkProcessHealth, List.filter, hon, checkProcesses]
  simp only [List.append_nil]
  exact cpuAlert_mem_checkOne cpuT memT rT now counts (restartOk p.name) p hcpu

/-! ## Claim theorems -/

/-- C1 (counterexample): the claim says no remediation restart is ever
attempted on the first unhealthy verdict (it requires at least 3 consecutive
unhealthy checks).  In the code, on the very first evaluation of a stuck
process — `restartCounts` still the constructor's empty map, no prior checks
recorded anywhere — `handleStuckProcess` already invokes `pm2Restart`. -/
theorem c1_counterexample :
    (checkOneProcess 80 80 5 400000 [] true stuckProc).restartAttempted = true ∧
    getCount [] stuckProc.name = 0 := by
  constructor <;> rfl

/-- C1 (amended): a remediation restart is attempted iff the process is
currently flagged stuck by `isProcessStuck` (uptime above 300000 ms, CPU
reading 0, status online) and its restart-attempt counter is strictly below
`restartThreshold`.  There is no consecutive-unhealthy-checks requirement, so
a restart can be attempted on the first unhealthy verdict. -/
theorem c1_amended (cpuT memT rT : Nat) (now : Int) (counts : RestartCounts)
    (ok : Bool) (p : Pm2Process) :
    (checkOneProcess cpuT memT rT now counts ok p).restartAttempted =
      (isProcessStuck now p && decide (getCount counts p.name < rT)) := by
  by_cases hs : isProcessStuck now p
  · simp [checkOneProcess, hs]
    by_cases hc : getCount counts p.name < rT
    · cases ok <;> simp [handleStuckProcess, hc]
    · simp [handleStuckProcess, hc]
  · simp [checkOneProcess, hs]

/-- C2 (code bug): the bulk operations `pm2RestartAll`, `pm2StopAll` and
`pm2StartAll` pass the literal `"all"` to PM2 with no filtering, so in a
fleet that contains the bot's own process (named `pm2-telegram-bot` per
ecosystem.config.js and the README) the target set includes the monitor
itself — contradicting the README's documented "Auto-Exclusion"
self-protection. -/
theorem c2_code_bug :
    "pm2-telegram-bot" ∈ pm2RestartAllTargets ["pm2-telegram-bot", "api"] ∧
    "pm2-telegram-bot" ∈ pm2StopAllTargets ["pm2-telegram-bot", "api"] ∧
    "pm2-telegram-bot" ∈ pm2StartAllTargets ["pm2-telegram-bot", "api"] := by
  refine ⟨?_, ?_, ?_⟩ <;>
    simp [pm2RestartAllTargets, pm2StopAllTargets, pm2StartAllTargets, bulkTargets]

/-- C3 (counterexample): the claim says no two alerts for the same process
are ever sent less than 5 minutes (300000 ms) apart.  Running the monitoring
loop on two consecutive ticks 30000 ms apart over the same high-CPU process
produces two alerts for that process separated by only 30000 ms: the code
keeps no last-alert timestamp and enforces no cooldown. -/
theorem c3_counterexample :
    runMonitor 80 80 5 (fun _ => true) [(0, [hotProc]), (30000, [hotProc])] [] =
      [(0, cpuAlertText hotProc), (30000, cpuAlertText hotProc)] ∧
    (30000 : Int) - 0 < 300000 := by
  constructor
  · rfl
  · decide

/-- C3 (amended): no cooldown is enforced — whenever a process's CPU reading
exceeds the threshold on a tick, the high-CPU alert is emitted on that tick,
so back-to-back ticks each produce an alert for the same process regardless
of how recently the previous alert was sent. -/
theorem c3_amended (cpuT memT rT : Nat) (restartOk : String → Bool)
    (counts : RestartCounts) (t1 t2 : Int) (p : Pm2Process)
    (hcpu : cpuOf p > cpuT) (hon : isOnline p = true) :
    (t1, cpuAlertText p) ∈
      runMonitor cpuT memT rT restartOk [(t1, [p]), (t2, [p])] counts ∧
    (t2, cpuAlertText p) ∈
      runMonitor cpuT memT rT restartOk [(t1, [p]), (t2, [p])] counts := by
  constructor
  · simp only [runMonitor]
    apply List.mem_append_left
    exact List.mem_map_of_mem _ (cpuAlert_mem_tick cpuT memT rT t1 restartOk counts p hcpu hon)
  · simp only [runMonitor]
    apply List.mem_append_right
    apply List.mem_append_left
    exact List.mem_map_of_mem _ (cpuAlert_mem_tick cpuT memT rT t2 restartOk _ p hcpu hon)

/-- C3 (witness for the amended theorem): concrete instance with the 95%-CPU
process and ticks at 0 ms and 30000 ms. -/
theorem c3_amended_witness :
    (0, cpuAlertText hotProc) ∈
      runMonitor 80 80 5 (fun _ => true) [(0, [hotProc]), (30000, [hotProc])] [] ∧
    (30000, cpuAlertText hotProc) ∈
      runMonitor 80 80 5 (fun _ => true) [(0, [hotProc]), (30000, [hotProc])] [] :=
  c3_amended 80 80 5 (fun _ => true) [] 0 30000 hotProc (by decide) (by decide)

/-- C4: when the `pm2Restart` call of a remediation attempt fails, the
restart-attempt counter is left unchanged — even after any number `k` of
consecutive failed attempts the map is unchanged, so the process stays
eligible — a restart is still invoked on a failing attempt, and the counter
is incremented exactly when the restart call succeeds. -/
theorem c4_failed_restart (rT : Nat) (counts : RestartCounts) (name : String)
    (k : Nat) (h : getCount counts name < rT) :
    applyStuckSteps rT (List.replicate k (name, false)) counts = counts ∧
    (handleStuckProcess rT counts name false).counts = counts ∧
    (handleStuckProcess rT counts name false).restartInvoked = true ∧
    (handleStuckProcess rT counts name true).counts =
      setCount counts name (getCount counts name + 1) := by
  refine ⟨applyStuckSteps_replicate_fail rT counts name h k,
    handleStuck_fail_counts rT counts name h, ?_, ?_⟩
  · simp [handleStuckProcess, h]
  · simp [handleStuckProcess, h]

/-- C4 (witness): the spec scenario — restartThreshold 2, two consecutive
failed restart attempts leave the counter map empty (counter 0), and the
counter is still below the threshold for a third attempt. -/
theorem c4_failed_restart_witness :
    (applyStuckSteps 2 (List.replicate 2 ("api", false)) [] = [] ∧
      (handleStuckProcess 2 [] "api" false).counts = [] ∧
      (handleStuckProcess 2 [] "api" false).restartInvoked = true ∧
      (handleStuckProcess 2 [] "api" true).counts =
        setCount [] "api" (getCount [] "api" + 1)) ∧
    getCount [] "api" < 2 :=
  ⟨c4_failed_restart 2 [] "api" 2 (by decide), by decide⟩

/-- C5: when remediation runs with the counter at or above
`restartThreshold`, no restart is invoked, the manual-intervention alert is
sent, and the counter is reset to exactly 0. -/
theorem c5_threshold_reached (rT : Nat) (counts : RestartCounts) (name : String)
    (ok : Bool) (h : rT ≤ getCount counts name) :
    (handleStuckProcess rT counts name ok).restartInvoked = false ∧
    getCount (handleStuckProcess rT counts name ok).counts name = 0 ∧
    (handleStuckProcess rT counts name ok).alerts =
      ["Process " ++ name ++ " has been restarted " ++ toString rT ++
       " times. Manual intervention required."] := by
  have hc : ¬ getCount counts name < rT := Nat.not_lt.mpr h
  refine ⟨?_, ?_, ?_⟩ <;> simp [handleStuckProcess, hc, getCount_setCount]

/-- C5 (witness): the spec scenario — restartThreshold 1, counter already at
1: manual intervention alert, counter reset to 0. -/
theorem c5_threshold_reached_witness :
    (handleStuckProcess 1 [("api", 1)] "api" true).restartInvoked = false ∧
    getCount (handleStuckProcess 1 [("api", 1)] "api" true).counts "api" = 0 ∧
    (handleStuckProcess 1 [("api", 1)] "api" true).alerts =
      ["Process " ++ "api" ++ " has been restarted " ++ toString 1 ++
       " times. Manual intervention required."] :=
  c5_threshold_reached 1 [("api", 1)] "api" true (by decide)

/-- C6 (counterexample): the claim says the stuck check abstains whenever
fewer than 5 CPU samples have been recorded.  The code keeps no CPU-sample
history at all: at the very first evaluation of a process (zero samples
recorded anywhere in the program state) the stuck branch already fires. -/
theorem c6_counterexample :
    (checkOneProcess 80 80 5 400000 [] true stuckProc).stuckDetected = true := by
  rfl

/-- C6 (amended): the stuck check is based solely on the instantaneous CPU
reading of the current snapshot — it fires exactly when the process has been
up longer than 300000 ms, its current CPU reading is 0, and its status is
online; no sample history or mean is involved. -/
theorem c6_amended (cpuT memT rT : Nat) (now : Int) (counts : RestartCounts)
    (ok : Bool) (p : Pm2Process) :
    (checkOneProcess cpuT memT rT now counts ok p).stuckDetected =
      (decide (now - p.pm2_env.pm_uptime > 300000) && (cpuOf p == 0) &&
        (p.pm2_env.status == "online")) := by
  have h : (checkOneProcess cpuT memT rT now counts ok p).stuckDetected =
      isProcessStuck now p := by
    by_cases hs : isProcessStuck now p <;> simp [checkOneProcess, hs]
  rw [h]; rfl

/-- C7 (counterexample): the claim says a tick that fires while a previous
deep-health pass is still running performs zero evaluations and zero history
mutations.  With `previousPassStillRunning = true`, a tick over a snapshot
holding one online stuck process still evaluates 1 process and mutates the
restart-counter map. -/
theorem c7_counterexample :
    (monitorTick true 80 80 5 400000 (fun _ => true) [stuckProc] []).evaluated = 1 ∧
    (monitorTick true 80 80 5 400000 (fun _ => true) [stuckProc] []).counts =
      [("worker", 1)] := by
  constructor <;> rfl

/-- C7 (amended): `startMonitoring` registers the interval callback without
any in-flight guard — a tick's entire result is independent of whether a
previous pass is still running, and every tick evaluates every online process
of its snapshot (overlapping ticks are executed, not skipped). -/
theorem c7_amended (o1 o2 : Bool) (cpuT memT rT : Nat) (now : Int)
    (restartOk : String → Bool) (procs : List Pm2Process) (counts : RestartCounts) :
    monitorTick o1 cpuT memT rT now restartOk procs counts =
      monitorTick o2 cpuT memT rT now restartOk procs counts ∧
    (monitorTick o1 cpuT memT rT now restartOk procs counts).evaluated =
      (procs.filter isOnline).length :=
  ⟨rfl, rfl⟩

/-- C8 (code bug): with destinations [1, 2] and delivery to chat 1 failing,
`sendAlert` attempts only chat 1 — chat 2 is never attempted — and the
function rejects with a ReferenceError, because the catch block evaluates a
template literal referencing the undeclared variable `userId`.  The claim
(later destinations still attempted, no error raised to the caller) is the
clear intent of the log-and-continue catch block, which the code slip breaks. -/
theorem c8_code_bug :
    sendAlertRun (fun c => c != 1) [1, 2] =
      ([1], some "ReferenceError: userId is not defined") ∧
    (2 : Int) ∉ (sendAlertRun (fun c => c != 1) [1, 2]).1 := by
  constructor
  · rfl
  · decide

/-- C9: the authorization middleware admits every sender when the
authorized-users list is empty, and rejects a sender exactly when the list is
non-empty and `includes` neither the sender's user id nor their username. -/
theorem c9_authorization (users : List JsVal) (sender : Sender) :
    authAdmits [] sender = true ∧
    (authAdmits users sender = false ↔
      ((users.length == 0) = false ∧ jsIncludes users sender.id = false ∧
        jsIncludes users sender.username = false)) := by
  constructor
  · simp [authAdmits]
  · simp [authAdmits, Bool.or_eq_false_iff, and_assoc]

/-- C10: starting from the constructor's empty `restartCounts` map, after any
sequence of `handleStuckProcess` invocations (the only code mutating the
map), every process's counter lies in the range 0..restartThreshold
inclusive: it is incremented only while strictly below the threshold and
reset to 0 once handled at or above it. -/
theorem c10_counter_bounded (rT : Nat) (steps : List (String × Bool)) (name : String) :
    getCount (applyStuckSteps rT steps []) name ≤ rT :=
  applyStuckSteps_le rT steps [] (fun m => by simp [getCount]) name

end Pm2Bot
